import Mathlib

/-
Verification of the Fusion 360 AI copilot palette UI glue.

The development shallowly embeds the palette script
(src/commands/paletteShow/resources/html: the inline chat script and
palette.js).  DOM state is modelled as the ordered list of children of the
messages container plus the chat input value and the send-button disabled
flag.  The host bridge call adsk.fusionSendData is modelled by an explicit
outcome parameter (resolved string or rejection) and by recording the calls
that were issued.  JSON.parse and JSON.stringify are modelled by an
executable JSON parser and printer over an inductive JSON value type;
JavaScript property access (which throws on null, yields undefined on
primitives) is modelled with Except/Option.  Fire-and-forget timers
(banner auto-dismiss, textarea resize animation) are outside the model.
-/

/-- JSON values as produced by JSON.parse.  Numbers keep their raw numeral
text, which JSON.stringify reproduces for the plain integer literals used
here.  Object field lists are key-unique by construction (duplicate keys
keep the last value, as JSON.parse does). -/
inductive JsonVal where
  | null : JsonVal
  | bool (b : Bool) : JsonVal
  | num (raw : String) : JsonVal
  | str (s : String) : JsonVal
  | arr (elems : List JsonVal) : JsonVal
  | obj (fields : List (String × JsonVal)) : JsonVal

/-- Insert a key/value pair, overriding an existing key in place (the way a
JavaScript object literal or JSON.parse treats duplicate keys). -/
def insertField : List (String × JsonVal) → String → JsonVal → List (String × JsonVal)
  | [], k, v => [(k, v)]
  | (k1, v1) :: rest, k, v =>
    if k1 = k then (k1, v) :: rest else (k1, v1) :: insertField rest k v

/-- Look a key up in an object field list. -/
def lookupField : List (String × JsonVal) → String → Option JsonVal
  | [], _ => none
  | (k1, v1) :: rest, k => if k1 = k then some v1 else lookupField rest k

/-- JSON insignificant whitespace: space, tab, line feed, carriage return. -/
def skipWs : List Char → List Char
  | [] => []
  | c :: cs =>
    if c = ' ' ∨ c = '\t' ∨ c = '\n' ∨ c = '\r' then skipWs cs else c :: cs

/-- Value of one hexadecimal digit. -/
def parseHexDigit (c : Char) : Option Nat :=
  if 48 ≤ c.toNat ∧ c.toNat ≤ 57 then some (c.toNat - 48)
  else if 97 ≤ c.toNat ∧ c.toNat ≤ 102 then some (c.toNat - 87)
  else if 65 ≤ c.toNat ∧ c.toNat ≤ 70 then some (c.toNat - 55)
  else none

/-- JSON string escape characters. -/
def escMap (e : Char) : Option Char :=
  if e = '"' then some '"'
  else if e = '\\' then some '\\'
  else if e = '/' then some '/'
  else if e = 'b' then some (Char.ofNat 8)
  else if e = 'f' then some (Char.ofNat 12)
  else if e = 'n' then some '\n'
  else if e = 'r' then some '\r'
  else if e = 't' then some '\t'
  else none

/-- Body of a JSON string, after the opening quote.  Returns the decoded
string and the input remaining after the closing quote.  Unescaped control
characters are rejected, as JSON.parse rejects them.  A \u escape becomes
the single code point of its 16-bit value (surrogate pairing is not
modelled; no input in this development uses it). -/
def parseStringBody : Nat → List Char → Option (String × List Char)
  | 0, _ => none
  | _, [] => none
  | fuel + 1, c :: cs =>
    if c = '"' then some ("", cs)
    else if c = '\\' then
      match cs with
      | [] => none
      | e :: cs1 =>
        if e = 'u' then
          match cs1 with
          | h1 :: h2 :: h3 :: h4 :: rest =>
            match parseHexDigit h1, parseHexDigit h2, parseHexDigit h3, parseHexDigit h4 with
            | some a, some b, some c2, some d =>
              match parseStringBody fuel rest with
              | some (s, rem) =>
                some (String.mk (Char.ofNat (a * 4096 + b * 256 + c2 * 16 + d) :: s.toList), rem)
              | none => none
            | _, _, _, _ => none
          | _ => none
        else
          match escMap e with
          | some ec =>
            match parseStringBody fuel cs1 with
            | some (s, rem) => some (String.mk (ec :: s.toList), rem)
            | none => none
          | none => none
    else if c.toNat < 32 then none
    else
      match parseStringBody fuel cs with
      | some (s, rem) => some (String.mk (c :: s.toList), rem)
      | none => none

/-- Longest digit run at the front of the input. -/
def digitSpan : List Char → List Char × List Char
  | [] => ([], [])
  | c :: rest =>
    if c.isDigit then
      let (d, r) := digitSpan rest
      (c :: d, r)
    else ([], c :: rest)

/-- Integer part of a JSON number: 0, or a nonzero digit followed by digits
(JSON forbids leading zeros). -/
def parseIntPart : List Char → Option (List Char × List Char)
  | [] => none
  | c :: rest =>
    if c = '0' then some ([c], rest)
    else if c.isDigit then
      let (d, r) := digitSpan rest
      some (c :: d, r)
    else none

/-- Optional fraction part of a JSON number. -/
def parseFracPart (cs : List Char) : Option (List Char × List Char) :=
  match cs with
  | '.' :: rest =>
    match digitSpan rest with
    | ([], _) => none
    | (d, r) => some ('.' :: d, r)
  | _ => some ([], cs)

/-- Optional exponent part of a JSON number. -/
def parseExpPart (cs : List Char) : Option (List Char × List Char) :=
  match cs with
  | [] => some ([], [])
  | c :: rest =>
    if c = 'e' ∨ c = 'E' then
      let (sign, rest2) :=
        match rest with
        | s :: r2 => if s = '+' ∨ s = '-' then ([s], r2) else (([] : List Char), s :: r2)
        | [] => ([], [])
      match digitSpan rest2 with
      | ([], _) => none
      | (d, r) => some (c :: (sign ++ d), r)
    else some ([], c :: rest)

/-- A JSON number; the raw numeral text is kept. -/
def parseNumber (cs : List Char) : Option (String × List Char) :=
  let (neg, cs1) :=
    match cs with
    | '-' :: rest => (['-'], rest)
    | _ => (([] : List Char), cs)
  match parseIntPart cs1 with
  | none => none
  | some (ip, cs2) =>
    match parseFracPart cs2 with
    | none => none
    | some (fp, cs3) =>
      match parseExpPart cs3 with
      | none => none
      | some (ep, cs4) => some (String.mk (neg ++ ip ++ fp ++ ep), cs4)

mutual

/-- One JSON value, fuel-bounded recursive descent. -/
def parseValue : Nat → List Char → Option (JsonVal × List Char)
  | 0, _ => none
  | fuel + 1, cs =>
    match skipWs cs with
    | [] => none
    | c :: rest =>
      if c = '"' then
        match parseStringBody (rest.length + 1) rest with
        | some (s, r) => some (JsonVal.str s, r)
        | none => none
      else if c = 't' then
        match rest with
        | 'r' :: 'u' :: 'e' :: r => some (JsonVal.bool true, r)
        | _ => none
      else if c = 'f' then
        match rest with
        | 'a' :: 'l' :: 's' :: 'e' :: r => some (JsonVal.bool false, r)
        | _ => none
      else if c = 'n' then
        match rest with
        | 'u' :: 'l' :: 'l' :: r => some (JsonVal.null, r)
        | _ => none
      else if c = '[' then
        match skipWs rest with
        | ']' :: r => some (JsonVal.arr [], r)
        | cs2 => parseElems fuel cs2 []
      else if c = '\x7b' then
        match skipWs rest with
        | '\x7d' :: r => some (JsonVal.obj [], r)
        | cs2 => parseMembers fuel cs2 []
      else
        match parseNumber (c :: rest) with
        | some (raw, r) => some (JsonVal.num raw, r)
        | none => none

/-- Array elements after the opening bracket (nonempty case). -/
def parseElems : Nat → List Char → List JsonVal → Option (JsonVal × List Char)
  | 0, _, _ => none
  | fuel + 1, cs, acc =>
    match parseValue fuel cs with
    | none => none
    | some (v, r) =>
      match skipWs r with
      | ',' :: r2 => parseElems fuel r2 (acc ++ [v])
      | ']' :: r2 => some (JsonVal.arr (acc ++ [v]), r2)
      | _ => none

/-- Object members after the opening brace (nonempty case). -/
def parseMembers : Nat → List Char → List (String × JsonVal) → Option (JsonVal × List Char)
  | 0, _, _ => none
  | fuel + 1, cs, acc =>
    match skipWs cs with
    | '"' :: r =>
      match parseStringBody (r.length + 1) r with
      | none => none
      | some (k, r2) =>
        match skipWs r2 with
        | ':' :: r3 =>
          match parseValue fuel r3 with
          | none => none
          | some (v, r4) =>
            match skipWs r4 with
            | ',' :: r5 => parseMembers fuel r5 (insertField acc k v)
            | '\x7d' :: r5 => some (JsonVal.obj (insertField acc k v), r5)
            | _ => none
        | _ => none
    | _ => none

end

/-- Model of JSON.parse: none models a thrown SyntaxError.  The fuel bound
is ample: the recursion depth is at most twice the input length. -/
def parseJson (s : String) : Option JsonVal :=
  match parseValue (2 * s.length + 2) s.toList with
  | some (v, rest) =>
    match skipWs rest with
    | [] => some v
    | _ => none
  | none => none

/-- One hexadecimal digit as text. -/
def hexDigitStr (n : Nat) : String :=
  String.mk [Char.ofNat (if n < 10 then 48 + n else 87 + n)]

/-- JSON string escaping, as JSON.stringify performs it. -/
def escapeJsonChar (c : Char) : String :=
  if c = '"' then "\\\""
  else if c = '\\' then "\\\\"
  else if c = '\n' then "\\n"
  else if c = '\r' then "\\r"
  else if c = '\t' then "\\t"
  else if c = Char.ofNat 8 then "\\b"
  else if c = Char.ofNat 12 then "\\f"
  else if c.toNat < 32 then "\\u00" ++ hexDigitStr (c.toNat / 16) ++ hexDigitStr (c.toNat % 16)
  else String.mk [c]

/-- Escape every character of a string for JSON output. -/
def escapeJsonString (s : String) : String :=
  String.join (s.toList.map escapeJsonChar)

mutual

/-- Model of JSON.stringify on JSON values. -/
def jsonStringify : JsonVal → String
  | JsonVal.null => "null"
  | JsonVal.bool b => if b then "true" else "false"
  | JsonVal.num raw => raw
  | JsonVal.str s => "\"" ++ escapeJsonString s ++ "\""
  | JsonVal.arr xs => "[" ++ stringifyElems xs ++ "]"
  | JsonVal.obj fs => "\x7b" ++ stringifyFields fs ++ "\x7d"

/-- Comma-separated stringified array elements. -/
def stringifyElems : List JsonVal → String
  | [] => ""
  | [x] => jsonStringify x
  | x :: y :: rest => jsonStringify x ++ "," ++ stringifyElems (y :: rest)

/-- Comma-separated stringified object members. -/
def stringifyFields : List (String × JsonVal) → String
  | [] => ""
  | [(k, v)] => "\"" ++ escapeJsonString k ++ "\":" ++ jsonStringify v
  | (k, v) :: p :: rest =>
    "\"" ++ escapeJsonString k ++ "\":" ++ jsonStringify v ++ "," ++ stringifyFields (p :: rest)

end

/-- Does pat occur at the front of s? -/
def listStarts : List Char → List Char → Bool
  | [], _ => true
  | _ :: _, [] => false
  | p :: ps, c :: cs => p = c && listStarts ps cs

/-- Does pat occur anywhere in s? -/
def listContains (pat : List Char) : List Char → Bool
  | [] => pat.isEmpty
  | c :: cs => listStarts pat (c :: cs) || listContains pat cs

/-- Substring test on strings. -/
def strContains (s pat : String) : Bool :=
  listContains pat.toList s.toList

/-- Model of String.prototype.replace with a single-character string
pattern: only the first occurrence is replaced. -/
def replaceFirstChar (pat rep : Char) : List Char → List Char
  | [] => []
  | c :: cs => if c = pat then rep :: cs else c :: replaceFirstChar pat rep cs

/-- The .replace of the source at the one place it occurs: underscore to
space, first occurrence only. -/
def jsReplaceUnderscore (s : String) : String :=
  String.mk (replaceFirstChar '_' ' ' s.toList)

/-- Model of String.prototype.trim (the whitespace set is the usual ASCII
one; every input in this development stays inside it). -/
def jsTrim (s : String) : String :=
  String.mk (((s.toList.dropWhile Char.isWhitespace).reverse.dropWhile Char.isWhitespace).reverse)

mutual

/-- Model of JavaScript ToString as a template literal applies it to a
JSON-decoded value: strings verbatim, numbers by their numeral, arrays
joined with commas, objects as [object Object]. -/
def jsToString : JsonVal → String
  | JsonVal.null => "null"
  | JsonVal.bool b => if b then "true" else "false"
  | JsonVal.num raw => raw
  | JsonVal.str s => s
  | JsonVal.arr xs => jsToStringElems xs
  | JsonVal.obj _ => "[object Object]"

/-- Array.prototype.toString: elements joined with commas, null rendered
empty inside an array. -/
def jsToStringElems : List JsonVal → String
  | [] => ""
  | [JsonVal.null] => ""
  | [x] => jsToString x
  | JsonVal.null :: y :: rest => "," ++ jsToStringElems (y :: rest)
  | x :: y :: rest => jsToString x ++ "," ++ jsToStringElems (y :: rest)

end

/-- Template-literal rendering of a possibly-undefined property value
(none models undefined). -/
def templateVal (x : Option JsonVal) : String :=
  match x with
  | none => "undefined"
  | some v => jsToString v

/-- JSON.stringify applied to a possibly-undefined value inside a template
literal: JSON.stringify(undefined) is undefined, which the template renders
as the text undefined. -/
def jsonStringifyOpt (x : Option JsonVal) : String :=
  match x with
  | none => "undefined"
  | some v => jsonStringify v

/-- JavaScript property read on a JSON-decoded value: throws (error) on
null, yields the field on an object, undefined (none) otherwise. -/
def getField : JsonVal → String → Except Unit (Option JsonVal)
  | JsonVal.null, _ => Except.error ()
  | JsonVal.obj fs, k => Except.ok (lookupField fs k)
  | _, _ => Except.ok none

/-- Total variant of property read, for values already known not to be
null. -/
def fieldValue : JsonVal → String → Option JsonVal
  | JsonVal.obj fs, k => lookupField fs k
  | _, _ => none

/-- The status field of a decoded reply (none when missing or when the
value is not an object). -/
def statusField (v : JsonVal) : Option JsonVal :=
  fieldValue v "status"

/-- The action field of a decoded reply. -/
def actionField (v : JsonVal) : Option JsonVal :=
  fieldValue v "action"

/-- Is this (possibly undefined) value a string? -/
def isStrOpt : Option JsonVal → Bool
  | some (JsonVal.str _) => true
  | _ => false

/-- A child of the messages container: either a chat bubble created by
addMessage (with its role) or a status banner created by addStatusMessage
(every banner carries the DOM id currentStatus; the loading-dots markup is
not modelled beyond the banner text). -/
inductive Node where
  | message (content : String) (role : String)
  | statusMessage (text : String) (stype : String)
deriving DecidableEq

/-- Does this container child carry the DOM id currentStatus? -/
def isStatusNode : Node → Bool
  | Node.statusMessage _ _ => true
  | Node.message _ _ => false

/-- The palette UI state: the ordered children of the messages container
(messageHistory mirrors the message children in the same order and is not
duplicated), the chat input value, and the send-button disabled flag. -/
structure UIState where
  container : List Node
  chatInput : String
  sendBtnDisabled : Bool
deriving DecidableEq

/-- Remove the first element carrying the id currentStatus, if any: the
effect of getElementById followed by remove. -/
def removeFirstStatus : List Node → List Node
  | [] => []
  | n :: ns => if isStatusNode n then ns else n :: removeFirstStatus ns

/-- addMessage: appends one chat bubble to the container (and the same
record to messageHistory). -/
def addMessage (content role : String) (st : UIState) : UIState :=
  { st with container := st.container ++ [Node.message content role] }

/-- addStatusMessage: builds a banner with id currentStatus, removes any
existing banner, then appends the new one. -/
def addStatusMessage (message stype : String) (st : UIState) : UIState :=
  { st with container := removeFirstStatus st.container ++ [Node.statusMessage message stype] }

/-- removeStatusMessage: removes the banner if present, otherwise does
nothing. -/
def removeStatusMessage (st : UIState) : UIState :=
  { st with container := removeFirstStatus st.container }

/-- The content of an assistant chat bubble, none for anything else. -/
def assistantOf : Node → Option String
  | Node.message c r => if r = "assistant" then some c else none
  | Node.statusMessage _ _ => none

/-- The text/type pair of a status banner, none for a chat bubble. -/
def bannerOf : Node → Option (String × String)
  | Node.message _ _ => none
  | Node.statusMessage m t => some (m, t)

/-- The contents of the assistant chat bubbles, in order. -/
def assistantMessages (st : UIState) : List String :=
  st.container.filterMap assistantOf

/-- The status banners present, in order, as text/type pairs. -/
def statusBanners (st : UIState) : List (String × String) :=
  st.container.filterMap bannerOf

/-- The try block of handleAIResponse: JSON.parse, then the status
dispatch.  An error result models a thrown exception, carrying the state
as mutated up to the throw point (the success banner is added before the
summary line is built, so a throw while reading action leaves the banner
in place).  Property access on null throws; .replace on a missing or
non-string action throws. -/
def handleTry (response : String) (st : UIState) : Except UIState UIState :=
  match parseJson response with
  | none => Except.error st
  | some parsedResponse =>
    match getField parsedResponse "status" with
    | Except.error _ => Except.error st
    | Except.ok statusOpt =>
      match statusOpt with
      | some (JsonVal.str s) =>
        if s = "success" then
          let st1 := addStatusMessage "✅ Command executed successfully!" "success" st
          match getField parsedResponse "action" with
          | Except.error _ => Except.error st1
          | Except.ok actionOpt =>
            match actionOpt with
            | some (JsonVal.str a) =>
              let msg := "Created: " ++ jsReplaceUnderscore a ++ " with parameters: " ++
                jsonStringifyOpt (fieldValue parsedResponse "parameters")
              Except.ok (addMessage msg "assistant" st1)
            | _ => Except.error st1
        else if s = "error" then
          let st1 := addStatusMessage "❌ Command failed to execute" "error" st
          Except.ok (addMessage ("Error: " ++ templateVal (fieldValue parsedResponse "message"))
            "assistant" st1)
        else if s = "processing" then
          Except.ok (addStatusMessage "🔄 AI is processing your command..." "loading" st)
        else Except.ok st
      | _ => Except.ok st

/-- handleAIResponse: removes the current banner, runs the try block, and
on a thrown exception falls back to appending the raw reply as a plain
assistant message.  The three-second banner auto-removal timer is
fire-and-forget and outside the model. -/
def handleAIResponse (response : String) (st : UIState) : UIState :=
  let stR := removeStatusMessage st
  match handleTry response stR with
  | Except.ok st1 => st1
  | Except.error st1 => addMessage response "assistant" st1

/-- updateMessage: parses the pushed string and appends the legacy
field-display line; parse failure or property access on null throws
(error). -/
def updateMessage (messageString : String) (st : UIState) : Except UIState UIState :=
  match parseJson messageString with
  | none => Except.error st
  | some messageData =>
    match getField messageData "myText" with
    | Except.error _ => Except.error st
    | Except.ok t =>
      let message := "Text: " ++ templateVal t ++ ", Expression: " ++
        templateVal (fieldValue messageData "myExpression") ++ ", Value: " ++
        templateVal (fieldValue messageData "myValue")
      Except.ok (addMessage message "assistant" st)

/-- handleAIUpdate: tries to parse the pushed string; on success, routes
the restringified value to handleAIResponse, otherwise routes the raw
string. -/
def handleAIUpdate (messageString : String) (st : UIState) : UIState :=
  match parseJson messageString with
  | some data => handleAIResponse (jsonStringify data) st
  | none => handleAIResponse messageString st

namespace fusionJavaScriptHandler

/-- The inbound dispatch entry window.fusionJavaScriptHandler.handle.
Returns the reply string for the host together with the new UI state.
The try/catch of the source is modelled by discarding the Except tag of a
throwing dispatch and returning OK; the unknown-action branch returns its
diagnostic from inside the try.  The debugger action is a breakpoint hook
with no model-visible effect.  Totality of this function models that the
handler never throws past its boundary. -/
def handle (action data : String) (st : UIState) : String × UIState :=
  if action = "updateMessage" then
    match updateMessage data st with
    | Except.ok st1 => ("OK", st1)
    | Except.error st1 => ("OK", st1)
  else if action = "aiResponse" then ("OK", handleAIUpdate data st)
  else if action = "debugger" then ("OK", st)
  else ("Unexpected command type: " ++ action, st)

end fusionJavaScriptHandler

/-- The components of a JavaScript Date that getDateString reads; month0
is the zero-based getMonth value. -/
structure JsDate where
  day : Nat
  month0 : Nat
  year : Nat
  hours : Nat
  minutes : Nat
  seconds : Nat

/-- getDateString: the display timestamp built from the current date. -/
def getDateString (today : JsDate) : String :=
  "Date: " ++ toString today.day ++ "/" ++ toString (today.month0 + 1) ++ "/" ++
    toString today.year ++ ", Time: " ++ toString today.hours ++ ":" ++
    toString today.minutes ++ ":" ++ toString today.seconds

/-- generateSessionId: randToken models the fresh
Math.random().toString(36).substr(2, 9) token and now models Date.now(). -/
def generateSessionId (randToken : String) (now : Nat) : String :=
  "session_" ++ randToken ++ "_" ++ toString now

/-- One invocation of the host bridge adsk.fusionSendData. -/
structure BridgeCall where
  channel : String
  payload : String
deriving DecidableEq

/-- Result of a send operation: the settled UI state and the bridge calls
issued. -/
structure SendResult where
  state : UIState
  calls : List BridgeCall
deriving DecidableEq

/-- The .catch handler of sendChatMessage: drop the banner and show the
generic communication-error bubble. -/
def bridgeErrorHandler (st : UIState) : UIState :=
  addMessage "Error communicating with Fusion 360. Please try again." "assistant"
    (removeStatusMessage st)

/-- sendChatMessage with the .then callback body abstracted: interp models
the response interpretation, which may throw (error), in which case the
.catch handler runs; the .finally handler re-enables the send button in
every case.  outcome is what the bridge promise settles to: ok with the
reply string, or error with a rejection.  The model collapses the
asynchronous settlement into the returned state. -/
def sendChatMessageWith (interp : String → UIState → Except UIState UIState)
    (today : JsDate) (randToken : String) (now : Nat)
    (outcome : Except String String) (st : UIState) : SendResult :=
  let userCommand := jsTrim st.chatInput
  if userCommand = "" then ⟨st, []⟩
  else
    let st1 := addMessage userCommand "user" st
    let st2 := { st1 with chatInput := "", sendBtnDisabled := true }
    let st3 := addStatusMessage "CadxStudio AI is analyzing your command..." "loading" st2
    let commandData := JsonVal.obj [("command", JsonVal.str userCommand),
      ("timestamp", JsonVal.str (getDateString today)),
      ("sessionId", JsonVal.str (generateSessionId randToken now))]
    let settled :=
      match outcome with
      | Except.ok result =>
        match interp result st3 with
        | Except.ok st4 => st4
        | Except.error st4 => bridgeErrorHandler st4
      | Except.error _ => bridgeErrorHandler st3
    ⟨{ settled with sendBtnDisabled := false }, [⟨"aiCommand", jsonStringify commandData⟩]⟩

/-- sendChatMessage as written in the source: the .then callback runs
handleAIResponse on the reply. -/
def sendChatMessage (today : JsDate) (randToken : String) (now : Nat)
    (outcome : Except String String) (st : UIState) : SendResult :=
  sendChatMessageWith (fun r s => Except.ok (handleAIResponse r s)) today randToken now outcome st

/-- Empty initial UI state: no container children, empty input, button
enabled. -/
def stEmpty : UIState := ⟨[], "", false⟩


/-- Number of status banners among the container children. -/
def countStatus : List Node → Nat
  | [] => 0
  | n :: ns => (if isStatusNode n then 1 else 0) + countStatus ns

lemma countStatus_append (l1 l2 : List Node) :
    countStatus (l1 ++ l2) = countStatus l1 + countStatus l2 := by
  induction l1 with
  | nil => simp [countStatus]
  | cons n ns ih => simp [countStatus, ih]; omega

lemma countStatus_removeFirstStatus_of_le_one (l : List Node)
    (h : countStatus l ≤ 1) :
    countStatus (removeFirstStatus l) = 0 := by
  induction l with
  | nil => simp [countStatus, removeFirstStatus]
  | cons n ns ih =>
    cases hn : isStatusNode n with
    | true =>
      simp only [countStatus, hn, if_pos] at h
      simp only [removeFirstStatus, hn, if_pos]
      omega
    | false =>
      simp only [countStatus, hn, Bool.false_eq_true, if_false, Nat.zero_add] at h
      simp only [removeFirstStatus, hn, Bool.false_eq_true, if_false, countStatus,
        Nat.zero_add]
      exact ih h

lemma removeFirstStatus_of_countStatus_zero (l : List Node)
    (h : countStatus l = 0) :
    removeFirstStatus l = l := by
  induction l with
  | nil => rfl
  | cons n ns ih =>
    cases hn : isStatusNode n with
    | true => simp [countStatus, hn] at h
    | false =>
      simp only [countStatus, hn, Bool.false_eq_true, if_false, Nat.zero_add] at h
      simp [removeFirstStatus, hn, ih h]

lemma countStatus_removeFirstStatus_le (l : List Node) :
    countStatus (removeFirstStatus l) ≤ countStatus l := by
  induction l with
  | nil => simp [removeFirstStatus]
  | cons n ns ih =>
    cases hn : isStatusNode n with
    | true => simp [removeFirstStatus, hn, countStatus]
    | false =>
      simp only [removeFirstStatus, hn, Bool.false_eq_true, if_false, countStatus,
        Nat.zero_add]
      exact ih

lemma filterMap_assistantOf_removeFirstStatus (l : List Node) :
    (removeFirstStatus l).filterMap assistantOf = l.filterMap assistantOf := by
  induction l with
  | nil => rfl
  | cons n ns ih =>
    cases n with
    | message c r => simp [removeFirstStatus, isStatusNode, List.filterMap_cons, ih]
    | statusMessage m t =>
      simp [removeFirstStatus, isStatusNode, List.filterMap_cons, assistantOf]

lemma filterMap_bannerOf_of_countStatus_zero (l : List Node)
    (h : countStatus l = 0) :
    l.filterMap bannerOf = [] := by
  induction l with
  | nil => rfl
  | cons n ns ih =>
    cases n with
    | message c r =>
      simp only [countStatus, isStatusNode, Bool.false_eq_true, if_false, Nat.zero_add] at h
      simp [List.filterMap_cons, bannerOf, ih h]
    | statusMessage m t => simp [countStatus, isStatusNode] at h

lemma getField_of_ne_null (v : JsonVal) (hv : v ≠ JsonVal.null) (k : String) :
    getField v k = Except.ok (fieldValue v k) := by
  cases v with
  | null => exact absurd rfl hv
  | bool b => rfl
  | num r => rfl
  | str s => rfl
  | arr xs => rfl
  | obj fs => rfl

lemma jsTrim_eq_empty (s : String) (h : s.toList.all Char.isWhitespace = true) :
    jsTrim s = "" := by
  unfold jsTrim
  have h1 : s.toList.dropWhile Char.isWhitespace = [] := by
    rw [List.dropWhile_eq_nil_iff]
    intro x hx
    exact List.all_eq_true.mp h x hx
  rw [h1]
  rfl

/-- C1: For every action string and data string, the inbound handler
window.fusionJavaScriptHandler.handle returns a string and never throws
(it is total in the model, with dispatch exceptions modelled by Except
and caught): for a known action (updateMessage, aiResponse, debugger) the
result is the fixed sentinel OK even when dispatch throws, and for any
other action the result is the non-OK diagnostic string
Unexpected command type followed by the action, with the UI state
unchanged, so no message is appended. -/
theorem c1_inbound_handler (action data : String) (st : UIState) :
    ((action = "updateMessage" ∨ action = "aiResponse" ∨ action = "debugger") →
      (fusionJavaScriptHandler.handle action data st).1 = "OK") ∧
    (action ≠ "updateMessage" → action ≠ "aiResponse" → action ≠ "debugger" →
      (fusionJavaScriptHandler.handle action data st).1 =
          "Unexpected command type: " ++ action ∧
        (fusionJavaScriptHandler.handle action data st).1 ≠ "OK" ∧
        (fusionJavaScriptHandler.handle action data st).2 = st) := by
  constructor
  · rintro (h | h | h) <;> subst h
    · simp only [fusionJavaScriptHandler.handle, if_pos rfl]
      cases updateMessage data st <;> rfl
    · rfl
    · rfl
  · intro h1 h2 h3
    have hne : ("Unexpected command type: " ++ action) ≠ "OK" := by
      intro hcontra
      have hlen := congrArg String.length hcontra
      rw [String.length_append] at hlen
      have e1 : ("Unexpected command type: " : String).length = 25 := rfl
      have e2 : ("OK" : String).length = 2 := rfl
      rw [e1, e2] at hlen
      omega
    have hfst : (fusionJavaScriptHandler.handle action data st).1 =
        "Unexpected command type: " ++ action := by
      simp [fusionJavaScriptHandler.handle, h1, h2, h3]
    refine ⟨hfst, ?_, ?_⟩
    · rw [hfst]
      exact hne
    · simp [fusionJavaScriptHandler.handle, h1, h2, h3]

/-- C1 witness: a concrete unknown action yields the diagnostic, and a known
action whose dispatch throws (non-JSON data makes updateMessage throw) still
yields OK. -/
theorem c1_witness :
    (fusionJavaScriptHandler.handle "bogus" "x" stEmpty).1 =
        "Unexpected command type: bogus" ∧
      (fusionJavaScriptHandler.handle "updateMessage" "not json" stEmpty).1 = "OK" := by
  exact ⟨((c1_inbound_handler "bogus" "x" stEmpty).2
      (by decide) (by decide) (by decide)).1,
    (c1_inbound_handler "updateMessage" "not json" stEmpty).1 (Or.inl rfl)⟩

/-- C2: Once the bridge call settles, the send button ends enabled, whether
the call resolved, rejected, or the response interpretation threw; stated
for sendChatMessageWith with an arbitrary interpretation callback and for
sendChatMessage itself (the finally-style guarantee). -/
theorem c2_button_reenabled
    (interp : String → UIState → Except UIState UIState) (today : JsDate)
    (randToken : String) (now : Nat) (outcome : Except String String) (st : UIState)
    (h : jsTrim st.chatInput ≠ "") :
    (sendChatMessageWith interp today randToken now outcome st).state.sendBtnDisabled
        = false ∧
    (sendChatMessage today randToken now outcome st).state.sendBtnDisabled = false := by
  constructor <;> simp [sendChatMessage, sendChatMessageWith, h]

/-- C2 witness: a concrete nonempty command with a rejecting bridge call ends
with the button enabled. -/
theorem c2_witness :
    jsTrim ((⟨[], " hi ", false⟩ : UIState)).chatInput ≠ "" ∧
    (sendChatMessageWith (fun r s => Except.ok (handleAIResponse r s)) ⟨1, 0, 2024, 0, 0, 0⟩
      "tok" 0 (Except.error "boom") ⟨[], " hi ", false⟩).state.sendBtnDisabled = false := by
  have h : jsTrim ((⟨[], " hi ", false⟩ : UIState)).chatInput ≠ "" := by decide
  exact ⟨h, (c2_button_reenabled _ _ _ _ _ _ h).1⟩

/-- C3: Sending an empty or whitespace-only input is a no-op: the state is
unchanged (no message appended, send control not disabled) and no bridge
call is issued. -/
theorem c3_empty_input_noop (today : JsDate) (randToken : String) (now : Nat)
    (outcome : Except String String) (st : UIState)
    (h : st.chatInput.toList.all Char.isWhitespace = true) :
    sendChatMessage today randToken now outcome st = ⟨st, []⟩ := by
  have htrim : jsTrim st.chatInput = "" := jsTrim_eq_empty _ h
  simp [sendChatMessage, sendChatMessageWith, htrim]

/-- C3 witness: a two-space input changes nothing and calls nothing. -/
theorem c3_witness :
    ((⟨[], "  ", false⟩ : UIState)).chatInput.toList.all Char.isWhitespace = true ∧
    sendChatMessage ⟨1, 0, 2024, 0, 0, 0⟩ "tok" 0 (Except.ok "ok") ⟨[], "  ", false⟩ =
      ⟨⟨[], "  ", false⟩, []⟩ := by
  exact ⟨by decide, c3_empty_input_noop _ _ _ _ _ (by decide)⟩

/-- C8: The status banner is a singleton by DOM id: from any state with at
most one banner, addStatusMessage leaves exactly one banner (it replaces
rather than stacks), removeStatusMessage never increases the banner count,
and removing an absent banner is a no-op (and, being total, not an
error). -/
theorem c8_banner_singleton (st : UIState) (m t : String) :
    (countStatus st.container ≤ 1 →
      countStatus (addStatusMessage m t st).container = 1) ∧
    countStatus (removeStatusMessage st).container ≤ countStatus st.container ∧
    (countStatus st.container = 0 → removeStatusMessage st = st) := by
  refine ⟨?_, ?_, ?_⟩
  · intro h
    simp [addStatusMessage, countStatus_append,
      countStatus_removeFirstStatus_of_le_one _ h, countStatus, isStatusNode]
  · exact countStatus_removeFirstStatus_le _
  · intro h
    simp [removeStatusMessage, removeFirstStatus_of_countStatus_zero _ h]

/-- C8 witness: from the empty state, adding a banner gives exactly one and
removing from a bannerless state is the identity. -/
theorem c8_witness :
    countStatus (addStatusMessage "working" "loading" stEmpty).container = 1 ∧
    removeStatusMessage stEmpty = stEmpty := by
  exact ⟨(c8_banner_singleton stEmpty "working" "loading").1 (by decide),
    (c8_banner_singleton stEmpty "working" "loading").2.2 (by decide)⟩

lemma statusBanners_display (st : UIState) (h : countStatus st.container ≤ 1)
    (m b bt : String) :
    statusBanners (addMessage m "assistant"
      (addStatusMessage b bt (removeStatusMessage st))) = [(b, bt)] := by
  have hc1 : countStatus (removeFirstStatus st.container) = 0 :=
    countStatus_removeFirstStatus_of_le_one _ h
  unfold statusBanners addMessage addStatusMessage removeStatusMessage
  simp [List.filterMap_append, removeFirstStatus_of_countStatus_zero _ hc1,
    filterMap_bannerOf_of_countStatus_zero _ hc1, bannerOf]

lemma assistantMessages_display (st : UIState) (m b bt : String) :
    assistantMessages (addMessage m "assistant"
      (addStatusMessage b bt (removeStatusMessage st))) = assistantMessages st ++ [m] := by
  unfold assistantMessages addMessage addStatusMessage removeStatusMessage
  simp [List.filterMap_append, filterMap_assistantOf_removeFirstStatus, assistantOf,
    bannerOf]

/-- C4: A reply string that does not parse as JSON is displayed literally:
handleAIResponse appends exactly one assistant message whose content equals
the raw reply, and raises no exception (the decode failure is caught and the
function is total). -/
theorem c4_nonjson_fallback (s : String) (st : UIState) (h : parseJson s = none) :
    handleAIResponse s st = addMessage s "assistant" (removeStatusMessage st) ∧
    assistantMessages (handleAIResponse s st) = assistantMessages st ++ [s] := by
  have h1 : handleAIResponse s st = addMessage s "assistant" (removeStatusMessage st) := by
    simp [handleAIResponse, handleTry, h]
  refine ⟨h1, ?_⟩
  rw [h1]
  unfold assistantMessages addMessage removeStatusMessage
  simp [List.filterMap_append, filterMap_assistantOf_removeFirstStatus, assistantOf]

/-- C4 witness: the reply hello is not JSON and becomes one assistant message
with content hello. -/
theorem c4_witness :
    parseJson "hello" = none ∧
    assistantMessages (handleAIResponse "hello" stEmpty) =
      assistantMessages stEmpty ++ ["hello"] :=
  ⟨rfl, (c4_nonjson_fallback "hello" stEmpty rfl).2⟩

/-- C5 counterexample: for the success reply with action make_hole, the
single appended assistant message is
Created: make hole with parameters: followed by the parameters, because the
source replaces the underscore of the action with a space before display;
the literal action string make_hole therefore does not occur in the message
content, refuting that the content contains the action as stated. -/
theorem c5_counterexample :
    statusBanners (handleAIResponse
        "\x7b\"status\":\"success\",\"action\":\"make_hole\",\"parameters\":\x7b\"d\":8\x7d\x7d"
        stEmpty) = [("✅ Command executed successfully!", "success")] ∧
    assistantMessages (handleAIResponse
        "\x7b\"status\":\"success\",\"action\":\"make_hole\",\"parameters\":\x7b\"d\":8\x7d\x7d"
        stEmpty) = ["Created: make hole with parameters: \x7b\"d\":8\x7d"] ∧
    strContains "Created: make hole with parameters: \x7b\"d\":8\x7d" "make_hole" = false :=
  ⟨rfl, rfl, rfl⟩

/-- C5 amended: the success reply with action make_hole and parameters d:8
produces exactly one banner, the success banner, and appends exactly one
assistant message whose content contains the action with its underscore
replaced by a space (make hole) and the JSON-serialized parameters. -/
theorem c5_success_reply (st : UIState) (h : countStatus st.container ≤ 1) :
    handleAIResponse
        "\x7b\"status\":\"success\",\"action\":\"make_hole\",\"parameters\":\x7b\"d\":8\x7d\x7d"
        st =
      addMessage "Created: make hole with parameters: \x7b\"d\":8\x7d" "assistant"
        (addStatusMessage "✅ Command executed successfully!" "success"
          (removeStatusMessage st)) ∧
    statusBanners (handleAIResponse
        "\x7b\"status\":\"success\",\"action\":\"make_hole\",\"parameters\":\x7b\"d\":8\x7d\x7d"
        st) = [("✅ Command executed successfully!", "success")] ∧
    assistantMessages (handleAIResponse
        "\x7b\"status\":\"success\",\"action\":\"make_hole\",\"parameters\":\x7b\"d\":8\x7d\x7d"
        st) = assistantMessages st ++ ["Created: make hole with parameters: \x7b\"d\":8\x7d"] ∧
    strContains "Created: make hole with parameters: \x7b\"d\":8\x7d" "make hole" = true ∧
    strContains "Created: make hole with parameters: \x7b\"d\":8\x7d" "\x7b\"d\":8\x7d" = true := by
  have ht : handleTry
      "\x7b\"status\":\"success\",\"action\":\"make_hole\",\"parameters\":\x7b\"d\":8\x7d\x7d"
      (removeStatusMessage st) =
      Except.ok (addMessage "Created: make hole with parameters: \x7b\"d\":8\x7d" "assistant"
        (addStatusMessage "✅ Command executed successfully!" "success"
          (removeStatusMessage st))) := rfl
  have h1 : handleAIResponse
      "\x7b\"status\":\"success\",\"action\":\"make_hole\",\"parameters\":\x7b\"d\":8\x7d\x7d" st =
      addMessage "Created: make hole with parameters: \x7b\"d\":8\x7d" "assistant"
        (addStatusMessage "✅ Command executed successfully!" "success"
          (removeStatusMessage st)) := by
    simp only [handleAIResponse]
    rw [ht]
  refine ⟨h1, ?_, ?_, rfl, rfl⟩
  · rw [h1]
    exact statusBanners_display st h _ _ _
  · rw [h1]
    exact assistantMessages_display st _ _ _

/-- C5 witness: the amended statement at the empty state. -/
theorem c5_witness :
    countStatus stEmpty.container ≤ 1 ∧
    assistantMessages (handleAIResponse
        "\x7b\"status\":\"success\",\"action\":\"make_hole\",\"parameters\":\x7b\"d\":8\x7d\x7d"
        stEmpty) =
      assistantMessages stEmpty ++ ["Created: make hole with parameters: \x7b\"d\":8\x7d"] :=
  ⟨by decide, (c5_success_reply stEmpty (by decide)).2.2.1⟩

/-- C6: the error reply with message bad param produces exactly one banner,
the error banner, and appends exactly one assistant message whose content
contains bad param. -/
theorem c6_error_reply (st : UIState) (h : countStatus st.container ≤ 1) :
    handleAIResponse "\x7b\"status\":\"error\",\"message\":\"bad param\"\x7d" st =
      addMessage "Error: bad param" "assistant"
        (addStatusMessage "❌ Command failed to execute" "error"
          (removeStatusMessage st)) ∧
    statusBanners (handleAIResponse "\x7b\"status\":\"error\",\"message\":\"bad param\"\x7d" st) =
      [("❌ Command failed to execute", "error")] ∧
    assistantMessages (handleAIResponse "\x7b\"status\":\"error\",\"message\":\"bad param\"\x7d" st) =
      assistantMessages st ++ ["Error: bad param"] ∧
    strContains "Error: bad param" "bad param" = true := by
  have ht : handleTry "\x7b\"status\":\"error\",\"message\":\"bad param\"\x7d"
      (removeStatusMessage st) =
      Except.ok (addMessage "Error: bad param" "assistant"
        (addStatusMessage "❌ Command failed to execute" "error"
          (removeStatusMessage st))) := rfl
  have h1 : handleAIResponse "\x7b\"status\":\"error\",\"message\":\"bad param\"\x7d" st =
      addMessage "Error: bad param" "assistant"
        (addStatusMessage "❌ Command failed to execute" "error"
          (removeStatusMessage st)) := by
    simp only [handleAIResponse]
    rw [ht]
  refine ⟨h1, ?_, ?_, rfl⟩
  · rw [h1]
    exact statusBanners_display st h _ _ _
  · rw [h1]
    exact assistantMessages_display st _ _ _

/-- C6 witness: the error reply at the empty state. -/
theorem c6_witness :
    countStatus stEmpty.container ≤ 1 ∧
    assistantMessages (handleAIResponse
        "\x7b\"status\":\"error\",\"message\":\"bad param\"\x7d" stEmpty) =
      assistantMessages stEmpty ++ ["Error: bad param"] :=
  ⟨by decide, (c6_error_reply stEmpty (by decide)).2.2.1⟩

/-- C7 counterexample: the reply null parses as JSON and carries no status
field, yet handleAIResponse appends an assistant message (reading .status on
null throws, and the catch displays the raw reply); moreover a reply with an
unknown status has a visible effect when a banner is present: the loading
banner is removed. -/
theorem c7_counterexample :
    parseJson "null" = some JsonVal.null ∧
    assistantMessages (handleAIResponse "null" stEmpty) = ["null"] ∧
    statusBanners (addStatusMessage "CadxStudio AI is analyzing your command..." "loading"
        stEmpty) = [("CadxStudio AI is analyzing your command...", "loading")] ∧
    statusBanners (handleAIResponse "\x7b\"status\":\"queued\"\x7d"
        (addStatusMessage "CadxStudio AI is analyzing your command..." "loading" stEmpty)) =
      [] :=
  ⟨rfl, rfl, rfl, rfl⟩

/-- C7 amended: for every reply that parses as a non-null JSON value whose
status field is missing or none of success, error, processing, the decoded
value is dropped: no message is appended and no banner is created; the only
effect is the removal of any pre-existing status banner, which
handleAIResponse performs on every reply.  (For the reply null, property
access on null throws and the raw reply is appended as a plain-text
assistant message instead.) -/
theorem c7_unknown_status (s : String) (v : JsonVal) (st : UIState)
    (hp : parseJson s = some v) (hv : v ≠ JsonVal.null)
    (h1 : statusField v ≠ some (JsonVal.str "success"))
    (h2 : statusField v ≠ some (JsonVal.str "error"))
    (h3 : statusField v ≠ some (JsonVal.str "processing")) :
    handleAIResponse s st = removeStatusMessage st := by
  simp only [handleAIResponse, handleTry, hp, getField_of_ne_null v hv]
  simp only [statusField] at h1 h2 h3
  cases hsf : fieldValue v "status" with
  | none => simp [hsf]
  | some w =>
    cases w with
    | str s2 =>
      rw [hsf] at h1 h2 h3
      have e1 : s2 ≠ "success" := by
        intro e
        exact h1 (by rw [e])
      have e2 : s2 ≠ "error" := by
        intro e
        exact h2 (by rw [e])
      have e3 : s2 ≠ "processing" := by
        intro e
        exact h3 (by rw [e])
      simp [hsf, e1, e2, e3]
    | null => simp [hsf]
    | bool b => simp [hsf]
    | num r => simp [hsf]
    | arr xs => simp [hsf]
    | obj fs => simp [hsf]

/-- C7 witness: a reply with status queued, from a state with a loading
banner, leaves exactly the banner-removed state. -/
theorem c7_witness :
    parseJson "\x7b\"status\":\"queued\"\x7d" =
      some (JsonVal.obj [("status", JsonVal.str "queued")]) ∧
    handleAIResponse "\x7b\"status\":\"queued\"\x7d"
        (addStatusMessage "working" "loading" stEmpty) =
      removeStatusMessage (addStatusMessage "working" "loading" stEmpty) :=
  ⟨rfl, c7_unknown_status _ _ _ rfl (by simp)
    (by simp [statusField, fieldValue, lookupField])
    (by simp [statusField, fieldValue, lookupField])
    (by simp [statusField, fieldValue, lookupField])⟩

/-- C9: for a nonempty trimmed command, exactly one bridge call is issued, on
channel aiCommand, whose payload is the JSON serialization of an object with
exactly the three fields command, timestamp and sessionId in that order,
where command is the trimmed input, timestamp is the display string built by
getDateString from the current date (Date: D/M/YYYY, Time: H:M:S with the
zero-based month incremented), and sessionId is the token freshly generated
by generateSessionId for this send. -/
theorem c9_outbound_payload (today : JsDate) (randToken : String) (now : Nat)
    (outcome : Except String String) (st : UIState) (h : jsTrim st.chatInput ≠ "") :
    (sendChatMessage today randToken now outcome st).calls =
      [⟨"aiCommand",
        jsonStringify (JsonVal.obj [("command", JsonVal.str (jsTrim st.chatInput)),
          ("timestamp", JsonVal.str (getDateString today)),
          ("sessionId", JsonVal.str (generateSessionId randToken now))])⟩] ∧
    getDateString today = "Date: " ++ toString today.day ++ "/" ++
        toString (today.month0 + 1) ++ "/" ++ toString today.year ++ ", Time: " ++
        toString today.hours ++ ":" ++ toString today.minutes ++ ":" ++
        toString today.seconds ∧
    generateSessionId randToken now = "session_" ++ randToken ++ "_" ++ toString now := by
  refine ⟨?_, rfl, rfl⟩
  simp [sendChatMessage, sendChatMessageWith, h]

/-- C9 witness: a concrete send produces the concrete serialized payload. -/
theorem c9_witness :
    jsTrim ((⟨[], " hi there ", false⟩ : UIState)).chatInput ≠ "" ∧
    (sendChatMessage ⟨5, 2, 2024, 14, 2, 9⟩ "abc123xyz" 1709647329000
        (Except.error "down") ⟨[], " hi there ", false⟩).calls =
      [⟨"aiCommand",
        "\x7b\"command\":\"hi there\",\"timestamp\":\"Date: 5/3/2024, Time: 14:2:9\",\"sessionId\":\"session_abc123xyz_1709647329000\"\x7d"⟩] := by
  have h : jsTrim ((⟨[], " hi there ", false⟩ : UIState)).chatInput ≠ "" := by decide
  exact ⟨h, ((c9_outbound_payload ⟨5, 2, 2024, 14, 2, 9⟩ "abc123xyz" 1709647329000
    (Except.error "down") ⟨[], " hi there ", false⟩ h).1).trans rfl⟩

/-- C10: for a reply parsing as JSON with status success whose action field
is absent or not a string, building the summary throws; the exception is
caught by the same catch as decode failure, after the success banner was
already added: the final state shows the success banner followed by the raw
reply string as a plain-text assistant message. -/
theorem c10_success_bad_action (s : String) (v : JsonVal) (st : UIState)
    (hp : parseJson s = some v) (hs : statusField v = some (JsonVal.str "success"))
    (ha : isStrOpt (actionField v) = false) :
    handleAIResponse s st =
      addMessage s "assistant"
        (addStatusMessage "✅ Command executed successfully!" "success"
          (removeStatusMessage st)) := by
  obtain ⟨fs, rfl⟩ : ∃ fs, v = JsonVal.obj fs := by
    cases v with
    | obj fs => exact ⟨fs, rfl⟩
    | null => simp [statusField, fieldValue] at hs
    | bool b => simp [statusField, fieldValue] at hs
    | num r => simp [statusField, fieldValue] at hs
    | str s2 => simp [statusField, fieldValue] at hs
    | arr xs => simp [statusField, fieldValue] at hs
  have hs1 : lookupField fs "status" = some (JsonVal.str "success") := hs
  have ha1 : isStrOpt (lookupField fs "action") = false := ha
  simp only [handleAIResponse, handleTry, hp, getField, hs1]
  cases hact : lookupField fs "action" with
  | none => simp [hact]
  | some w =>
    cases w with
    | str a =>
      rw [hact] at ha1
      simp [isStrOpt] at ha1
    | null => simp [hact]
    | bool b => simp [hact]
    | num r => simp [hact]
    | arr xs => simp [hact]
    | obj fs2 => simp [hact]

/-- C10 witness: a success reply with no action field shows the banner and
then the raw reply as the assistant message. -/
theorem c10_witness :
    parseJson "\x7b\"status\":\"success\"\x7d" =
      some (JsonVal.obj [("status", JsonVal.str "success")]) ∧
    handleAIResponse "\x7b\"status\":\"success\"\x7d" stEmpty =
      addMessage "\x7b\"status\":\"success\"\x7d" "assistant"
        (addStatusMessage "✅ Command executed successfully!" "success"
          (removeStatusMessage stEmpty)) :=
  ⟨rfl, c10_success_bad_action _ _ _ rfl rfl rfl⟩
